import Mathlib

/-!
Verification of the tutorial notebook `tutorials/algorithms/05_iqpe_from_vqe.ipynb`.

The notebook builds a fixed two-qubit Hamiltonian `H2_op` from five literal
real coefficients and Pauli factors, computes a reference ground-state energy
with the classical exact solver `NumPyMinimumEigensolver`, runs `VQE` with an
`SPSA` optimizer capped at 10 iterations on a seeded qasm simulator, wraps the
resulting optimal parameters into a `VarFormBased` initial state, runs `IQPE`
from that state, and prints deltas against the reference.

The development below embeds

* the operator `H2_op` as an exact rational 4×4 matrix (the notebook's
  coefficients are decimal literals, hence exact rationals), together with a
  real spectral analysis of its minimum eigenvalue;
* the notebook's cell-by-cell semantics as an environment-passing program over
  `Except`, parameterized by the outcomes of the three external solver calls
  (the solvers themselves are external library code, out of this repository's
  scope; their recorded outputs in the notebook's output cells constrain them);
* the notebook's statement order as a list of operations, for the ordering
  claims.
-/

namespace IqpeFromVqe

/-! ### The operator `H2_op` -/

/-- The one-qubit identity operator `I`, as an exact rational matrix. -/
def pauliI : Matrix (Fin 2) (Fin 2) ℚ := !![1, 0; 0, 1]

/-- The Pauli-X operator, as an exact rational matrix. -/
def pauliX : Matrix (Fin 2) (Fin 2) ℚ := !![0, 1; 1, 0]

/-- The Pauli-Z operator, as an exact rational matrix. -/
def pauliZ : Matrix (Fin 2) (Fin 2) ℚ := !![1, 0; 0, -1]

/-- Kronecker (tensor) product of two one-qubit operators, giving a two-qubit
operator; `kron A B` is qiskit's `A ^ B` (the left factor acts on the
higher-index qubit), whose matrix is the standard Kronecker product. -/
def kron (A B : Matrix (Fin 2) (Fin 2) ℚ) : Matrix (Fin 4) (Fin 4) ℚ :=
  Matrix.of fun i j =>
    A ⟨i.val / 2, by omega⟩ ⟨j.val / 2, by omega⟩ *
      B ⟨i.val % 2, by omega⟩ ⟨j.val % 2, by omega⟩

/-- The notebook's Hamiltonian, transcribed from cell 2:
`H2_op = (-1.052373245772859 * I ^ I) + (0.39793742484318045 * I ^ Z) +
(-0.39793742484318045 * Z ^ I) + (-0.01128010425623538 * Z ^ Z) +
(0.18093119978423156 * X ^ X)`. -/
def H2op : Matrix (Fin 4) (Fin 4) ℚ :=
  (-1.052373245772859 : ℚ) • kron pauliI pauliI +
  (0.39793742484318045 : ℚ) • kron pauliI pauliZ +
  (-0.39793742484318045 : ℚ) • kron pauliZ pauliI +
  (-0.01128010425623538 : ℚ) • kron pauliZ pauliZ +
  (0.18093119978423156 : ℚ) • kron pauliX pauliX

/-- Diagonal entry of `H2op` at positions 0 and 3 (sum of the `II` and `ZZ`
coefficients; the `IZ` and `ZI` coefficients cancel there). -/
def dA : ℚ := -1.06365335002909438

/-- Diagonal entry of `H2op` at position 1. -/
def dB : ℚ := -1.83696799120298452

/-- Diagonal entry of `H2op` at position 2. -/
def dC : ℚ := -0.24521829183026272

/-- Anti-diagonal entry of `H2op`, the coefficient of `X ^ X`. -/
def eXX : ℚ := 0.18093119978423156

lemma fin4_val_three : ((3 : Fin 4) : ℕ) = 3 := rfl

lemma H2op_eq_explicit :
    H2op = !![dA, 0, 0, eXX; 0, dB, eXX, 0; 0, eXX, dC, 0; eXX, 0, 0, dA] := by
  ext i j
  fin_cases i <;> fin_cases j <;>
    simp [H2op, kron, pauliI, pauliX, pauliZ, dA, dB, dC, eXX, fin4_val_three,
      Matrix.vecHead, Matrix.vecTail] <;> norm_num

/-- The operator as a real matrix, for spectral analysis. -/
def H2real : Matrix (Fin 4) (Fin 4) ℝ := H2op.map Rat.cast

/-- First factor of the characteristic polynomial of `H2real`: the block on
basis states 0 and 3. -/
def q1 (x : ℝ) : ℝ := ((dA : ℝ) - x) * ((dA : ℝ) - x) - (eXX : ℝ) * (eXX : ℝ)

/-- Second factor of the characteristic polynomial of `H2real`: the block on
basis states 1 and 2; its smaller root is the ground-state energy. -/
def q2 (x : ℝ) : ℝ := ((dB : ℝ) - x) * ((dC : ℝ) - x) - (eXX : ℝ) * (eXX : ℝ)

lemma H2real_eq_explicit :
    H2real = !![(dA : ℝ), 0, 0, (eXX : ℝ); 0, (dB : ℝ), (eXX : ℝ), 0;
      0, (eXX : ℝ), (dC : ℝ), 0; (eXX : ℝ), 0, 0, (dA : ℝ)] := by
  rw [H2real, H2op_eq_explicit]
  ext i j
  fin_cases i <;> fin_cases j <;> simp

lemma fin_castSucc_two : Fin.castSucc (2 : Fin 3) = (2 : Fin 4) := rfl

lemma det_sparse_four (w y z u v : ℝ) :
    (!![w, 0, 0, v; 0, y, v, 0; 0, v, z, 0; v, 0, 0, u]).det =
      (w * u - v * v) * (y * z - v * v) := by
  rw [Matrix.det_succ_row_zero]
  simp [Fin.sum_univ_succ, Matrix.det_fin_three, Matrix.submatrix_apply,
    Matrix.vecHead, Matrix.vecTail, fin_castSucc_two]
  ring

lemma H2real_sub_smul (x : ℝ) :
    H2real - x • (1 : Matrix (Fin 4) (Fin 4) ℝ) =
      !![(dA : ℝ) - x, 0, 0, (eXX : ℝ); 0, (dB : ℝ) - x, (eXX : ℝ), 0;
        0, (eXX : ℝ), (dC : ℝ) - x, 0; (eXX : ℝ), 0, 0, (dA : ℝ) - x] := by
  rw [H2real_eq_explicit]
  ext i j
  fin_cases i <;> fin_cases j <;>
    simp [Matrix.sub_apply, Matrix.one_apply]

lemma det_H2real_sub (x : ℝ) :
    (H2real - x • (1 : Matrix (Fin 4) (Fin 4) ℝ)).det = q1 x * q2 x := by
  rw [H2real_sub_smul, det_sparse_four]
  simp only [q1, q2]

lemma dA_real : (dA : ℝ) = -1.06365335002909438 := by
  rw [dA]; norm_num

lemma dB_real : (dB : ℝ) = -1.83696799120298452 := by
  rw [dB]; norm_num

lemma dC_real : (dC : ℝ) = -0.24521829183026272 := by
  rw [dC]; norm_num

lemma eXX_real : (eXX : ℝ) = 0.18093119978423156 := by
  rw [eXX]; norm_num

lemma q2_continuous : Continuous q2 := by
  unfold q2
  fun_prop

/-- C2: the classical exact solver applied to the fixed H2 operator returns
an eigenvalue whose real part is approximately `-1.85728`: the minimum real
root `lam` of the characteristic polynomial `det (H2real - lam • 1)` of the
source operator satisfies `|lam - (-1.85728)| < 1 / 100000` (so it prints as
`-1.85728` to five decimal places, matching the notebook's recorded output
`Reference value: -1.85728`). -/
theorem npme_minimum_eigenvalue_approx :
    ∃ lam : ℝ, (H2real - lam • (1 : Matrix (Fin 4) (Fin 4) ℝ)).det = 0 ∧
      |lam - (-1.85728)| < 1 / 100000 ∧
      ∀ mu : ℝ, (H2real - mu • (1 : Matrix (Fin 4) (Fin 4) ℝ)).det = 0 → lam ≤ mu := by
  have hlo : q2 (-1.857276) > 0 := by
    simp only [q2, dB_real, dC_real, eXX_real]
    norm_num
  have hhi : q2 (-1.857274) < 0 := by
    simp only [q2, dB_real, dC_real, eXX_real]
    norm_num
  obtain ⟨lam, hmem, hlam⟩ :=
    intermediate_value_Icc' (by norm_num : (-1.857276 : ℝ) ≤ -1.857274)
      q2_continuous.continuousOn
      (Set.mem_Icc.mpr ⟨le_of_lt hhi, le_of_lt hlo⟩)
  refine ⟨lam, ?_, ?_, ?_⟩
  · rw [det_H2real_sub, hlam, mul_zero]
  · rw [abs_lt]
    constructor <;> [skip; skip] <;> linarith [hmem.1, hmem.2]
  · intro mu hmu
    rw [det_H2real_sub] at hmu
    rcases mul_eq_zero.mp hmu with hq1mu | hq2mu
    · -- roots of the first factor are `dA - eXX` and `dA + eXX`, far above `lam`
      by_contra hcon
      push_neg at hcon
      have h1 : (dA : ℝ) - mu > 7 / 10 := by
        rw [dA_real]; linarith [hmem.2]
      have h2 : ((dA : ℝ) - mu) * ((dA : ℝ) - mu) > 49 / 100 := by nlinarith
      have h3 : (eXX : ℝ) * (eXX : ℝ) < 4 / 100 := by rw [eXX_real]; norm_num
      simp only [q1] at hq1mu
      linarith
    · -- both `mu` and `lam` are roots of the second quadratic factor
      have hlam' := hlam
      simp only [q2] at hq2mu hlam'
      have hfac : (mu - lam) * (mu + lam - ((dB : ℝ) + (dC : ℝ))) = 0 := by
        linear_combination hq2mu - hlam'
      rcases mul_eq_zero.mp hfac with h | h
      · linarith
      · rw [dB_real, dC_real] at h
        linarith [hmem.2]

/-! ### Cell-by-cell semantics of the notebook

The three solver invocations go to external library code (qiskit-aqua), which
is outside this repository; the spec declares those internals out of scope.
They are therefore parameters of the model (`ExtCalls`), each returning either
a result object or an uncaught exception, and the recorded output cells of the
notebook constrain them (`MatchesRecordedOutputs`). Everything the notebook
itself does — binding names, building configurations, rebinding `qi` and
`result_vqe` — is transcribed cell by cell. -/

/-- Complex number with exact rational parts; solver eigenvalues are floats
(hence rationals) and the notebook reads `.eigenvalue.real`. -/
structure CplxQ where
  re : ℚ
  im : ℚ
deriving DecidableEq

/-- Result object of a `compute_minimum_eigenvalue` call: the notebook reads
`.eigenvalue` (on all three results) and `.optimal_parameters` (on the VQE
result only; it is empty for the other solvers). -/
structure MEResult where
  eigenvalue : CplxQ
  optimal_parameters : List ℚ
deriving DecidableEq

/-- Configuration of the `TwoLocal` variational form, from cell 4:
`TwoLocal(rotation_blocks=['ry', 'rz'], entanglement_blocks='cz', reps=3)`. -/
structure TwoLocalCfg where
  rotation_blocks : List String
  entanglement_blocks : String
  reps : ℕ
deriving DecidableEq

/-- Arguments of a `QuantumInstance(...)` construction; `shots` is `none` when
the call passes no `shots` argument (backend default). -/
structure QuantumInstanceCfg where
  backend : String
  shots : Option ℕ
  seed_simulator : Option ℕ
  seed_transpiler : Option ℕ
deriving DecidableEq

/-- A `VarFormBased(var_form, params)` initial-state preparer, from cell 5. -/
structure VarFormBasedState where
  var_form : TwoLocalCfg
  params : List ℚ
deriving DecidableEq

/-- Arguments of the `IQPE(...)` construction in cell 6. -/
structure IQPECfg where
  state_in : VarFormBasedState
  num_time_slices : ℕ
  num_iterations : ℕ
  expansion_mode : String
  expansion_order : ℕ
  quantum_instance : QuantumInstanceCfg
deriving DecidableEq

/-- Outcomes of the three external solver calls, in notebook order: the
classical exact solver, the variational solver, and the phase-estimation
solver. Each either returns a result or raises (an uncaught exception,
modelled as `Except.error`). -/
structure ExtCalls where
  npme : Except String MEResult
  vqe : Except String MEResult
  iqpe : Except String MEResult

/-- The notebook's global namespace: one `Option` per name bound by a code
cell (`none` = not yet bound). `aqua_random_seed` is the process-wide
`aqua_globals.random_seed` assignment. -/
structure NotebookEnv where
  H2_op : Option (Matrix (Fin 4) (Fin 4) ℚ)
  ref_value : Option ℚ
  aqua_random_seed : Option ℕ
  var_form : Option TwoLocalCfg
  qi : Option QuantumInstanceCfg
  result_vqe : Option MEResult
  vqe_state : Option VarFormBasedState
  iqpe : Option IQPECfg
  result_iqpe : Option MEResult

/-- The empty namespace before any code cell runs. -/
def initialEnv : NotebookEnv :=
  ⟨none, none, none, none, none, none, none, none, none⟩

/-- Cell 2: `H2_op = (-1.052373245772859 * I ^ I) + ...`. -/
def cell2 (env : NotebookEnv) : NotebookEnv :=
  { env with H2_op := some H2op }

/-- Cell 3: `result = npme.compute_minimum_eigenvalue(operator=H2_op)` and
`ref_value = result.eigenvalue.real` (plus the reference print). -/
def cell3 (ext : ExtCalls) (env : NotebookEnv) : Except String NotebookEnv := do
  let result ← ext.npme
  pure { env with ref_value := some result.eigenvalue.re }

/-- The variational form built in cell 4. -/
def varFormTwoLocal : TwoLocalCfg :=
  { rotation_blocks := ["ry", "rz"], entanglement_blocks := "cz", reps := 3 }

/-- The quantum instance built in cell 4:
`QuantumInstance(backend, seed_simulator=seed, seed_transpiler=seed)` — no
`shots` argument. -/
def qiVQE : QuantumInstanceCfg :=
  { backend := "qasm_simulator", shots := none,
    seed_simulator := some 5, seed_transpiler := some 5 }

/-- Cell 4: sets `aqua_globals.random_seed = 5`, builds the `TwoLocal` form,
the `SPSA(maxiter=10)` optimizer, the seeded quantum instance, runs VQE and
binds `result_vqe` (plus the VQE prints). -/
def cell4 (ext : ExtCalls) (env : NotebookEnv) : Except String NotebookEnv := do
  let result ← ext.vqe
  pure { env with aqua_random_seed := some 5, var_form := some varFormTwoLocal,
                  qi := some qiVQE, result_vqe := some result }

/-- Cell 5: `vqe_state = VarFormBased(var_form, result_vqe.optimal_parameters)`. -/
def cell5 (env : NotebookEnv) : Except String NotebookEnv :=
  match env.var_form, env.result_vqe with
  | some vf, some rv =>
      pure { env with vqe_state := some ⟨vf, rv.optimal_parameters⟩ }
  | _, _ => throw "NameError: var_form or result_vqe is not defined"

/-- The quantum instance rebuilt in cell 6:
`QuantumInstance(backend, shots=100, seed_simulator=seed, seed_transpiler=seed)`. -/
def qiIQPE : QuantumInstanceCfg :=
  { backend := "qasm_simulator", shots := some 100,
    seed_simulator := some 5, seed_transpiler := some 5 }

/-- Cell 6: rebinds `qi`, configures IQPE from `vqe_state`, runs it, and the
chained assignment `result_iqpe = result_vqe = iqpe.compute_minimum_eigenvalue(...)`
binds both names to the same IQPE result (plus the IQPE prints). -/
def cell6 (ext : ExtCalls) (env : NotebookEnv) : Except String NotebookEnv :=
  match env.vqe_state with
  | none => throw "NameError: vqe_state is not defined"
  | some vs => do
      let result ← ext.iqpe
      pure { env with qi := some qiIQPE,
                      iqpe := some { state_in := vs, num_time_slices := 1,
                                     num_iterations := 6, expansion_mode := "suzuki",
                                     expansion_order := 2, quantum_instance := qiIQPE },
                      result_iqpe := some result,
                      result_vqe := some result }

/-- Sequential execution of cells 2–4 (through the VQE run). -/
def runThroughVQE (ext : ExtCalls) : Except String NotebookEnv := do
  cell4 ext (← cell3 ext (cell2 initialEnv))

/-- Sequential execution of all code cells of the notebook. -/
def runNotebook (ext : ExtCalls) : Except String NotebookEnv := do
  cell6 ext (← cell5 (← runThroughVQE ext))

/-- Integer that `f'{x:.5f}'` renders after the decimal point is dropped:
`x` rounded to five decimal places, scaled by `10^5`. -/
def round5 (x : ℚ) : ℤ := round (x * 100000)

/-- Constraints the notebook's recorded output cells place on the three
external solver calls: the stored run printed `Reference value: -1.85728`,
`VQE estimated the ground energy to be -1.74063`, `Delta from reference
energy value is 0.11664`, `Continuing with VQE's result, IQPE estimated the
ground energy to be -1.84917`, and `Delta from reference energy value is
0.00811`. -/
def MatchesRecordedOutputs (ext : ExtCalls) : Prop :=
  ∃ rn rv ri : MEResult,
    ext.npme = .ok rn ∧ ext.vqe = .ok rv ∧ ext.iqpe = .ok ri ∧
    round5 rn.eigenvalue.re = -185728 ∧
    round5 rv.eigenvalue.re = -174063 ∧
    round5 (rv.eigenvalue.re - rn.eigenvalue.re) = 11664 ∧
    round5 ri.eigenvalue.re = -184917 ∧
    round5 (ri.eigenvalue.re - rn.eigenvalue.re) = 811

lemma round5_bound (x : ℚ) (k : ℤ) (h : round5 x = k) :
    |x - k / 100000| ≤ 1 / 200000 := by
  have habs := abs_sub_round (x * 100000)
  rw [round5] at h
  rw [h] at habs
  have hdiv : |x - (k : ℚ) / 100000| = |x * 100000 - k| / 100000 := by
    rw [show x - (k : ℚ) / 100000 = (x * 100000 - k) / 100000 by ring, abs_div]
    norm_num
  rw [hdiv]
  linarith

/-- A concrete exact-solver outcome consistent with the recorded print
`Reference value: -1.85728`. -/
def rnRecorded : MEResult :=
  { eigenvalue := { re := -1.857277, im := 0 }, optimal_parameters := [] }

/-- A concrete VQE outcome consistent with the recorded prints `-1.74063`
and delta `0.11664`. -/
def rvRecorded : MEResult :=
  { eigenvalue := { re := -1.740633, im := 0 }, optimal_parameters := [1/2, 1/3] }

/-- A concrete IQPE outcome consistent with the recorded prints `-1.84917`
and delta `0.00811`. -/
def riRecorded : MEResult :=
  { eigenvalue := { re := -1.84917, im := 0 }, optimal_parameters := [] }

/-- A concrete assignment of solver outcomes consistent with every recorded
print of the stored run; used to witness the hypothesised theorems. -/
def extRecorded : ExtCalls :=
  { npme := .ok rnRecorded, vqe := .ok rvRecorded, iqpe := .ok riRecorded }

/-! ### Statement order of the notebook -/

/-- Operations the notebook's code cells perform, one per top-level statement
(cell 5's single statement evaluates `result_vqe.optimal_parameters` and then
calls `VarFormBased(...)`, hence two operations in that order). -/
inductive NBOp where
  | libraryImports
  | constructOperator
  | computeReference
  | printReference
  | setSeed
  | configureVarForm
  | configureOptimizer
  | configureBackend
  | configureQuantumInstanceVQE
  | configureVQE
  | runVQE
  | printVQEValue
  | printVQEDelta
  | extractOptimalParameters
  | wrapInitialState
  | configureQuantumInstanceIQPE
  | configureIQPE
  | runIQPE
  | printIQPEValue
  | printIQPEDelta
  | showVersionTable
deriving DecidableEq

/-- The notebook's statements in execution order, transcribed from cells 1–7. -/
def notebookTrace : List NBOp :=
  [.libraryImports,
   .constructOperator,
   .computeReference, .printReference,
   .setSeed, .configureVarForm, .configureOptimizer, .configureBackend,
     .configureQuantumInstanceVQE, .configureVQE, .runVQE, .printVQEValue,
     .printVQEDelta,
   .extractOptimalParameters, .wrapInitialState,
   .configureQuantumInstanceIQPE, .configureIQPE, .runIQPE, .printIQPEValue,
     .printIQPEDelta,
   .showVersionTable]

/-- The seven pipeline steps named by the spec. -/
inductive PipelineStep where
  | constructOperator
  | computeReference
  | runVariational
  | extractParameters
  | wrapInitialState
  | runPhaseEstimation
  | printDeltas
deriving DecidableEq

/-- Which pipeline step (if any) a notebook operation realizes; `printDeltas`
covers exactly the two delta prints against the reference. -/
def classifyOp : NBOp → Option PipelineStep
  | .constructOperator => some .constructOperator
  | .computeReference => some .computeReference
  | .runVQE => some .runVariational
  | .extractOptimalParameters => some .extractParameters
  | .wrapInitialState => some .wrapInitialState
  | .runIQPE => some .runPhaseEstimation
  | .printVQEDelta => some .printDeltas
  | .printIQPEDelta => some .printDeltas
  | _ => none

/-- The sequence of pipeline steps the notebook actually performs, in order. -/
def pipelineTrace : List PipelineStep := notebookTrace.filterMap classifyOp

/-- The pipeline order asserted by the spec: seven steps with a single final
delta-printing step. -/
def claimedPipeline : List PipelineStep :=
  [.constructOperator, .computeReference, .runVariational, .extractParameters,
   .wrapInitialState, .runPhaseEstimation, .printDeltas]

/-- Is this operation an invocation of one of the three solvers? -/
def isSolverInvocation : NBOp → Bool
  | .computeReference => true
  | .runVQE => true
  | .runIQPE => true
  | _ => false

/-- Formalization of the claim that the single seed assignment happens before
any solver invocation. -/
def seedSetBeforeAllSolverInvocations : Prop :=
  ∀ i : Fin notebookTrace.length,
    isSolverInvocation (notebookTrace.get i) = true →
      notebookTrace.indexOf NBOp.setSeed < i.val

instance : Decidable seedSetBeforeAllSolverInvocations := by
  unfold seedSetBeforeAllSolverInvocations
  infer_instance

/-- C5 counterexample: the notebook does not perform the claimed seven
pipeline steps in the claimed order — delta printing is not a single final
step (the VQE delta print precedes parameter extraction and the IQPE run). -/
theorem pipeline_order_counterexample : pipelineTrace ≠ claimedPipeline := by
  decide

/-- C5 (amended): the notebook performs the seven pipeline steps with steps
1–6 in the claimed relative order, but delta printing happens twice,
interleaved after each solver run (after the VQE run and after the IQPE run)
rather than once at the end. -/
theorem pipeline_order_amended :
    pipelineTrace =
      [.constructOperator, .computeReference, .runVariational, .printDeltas,
       .extractParameters, .wrapInitialState, .runPhaseEstimation, .printDeltas] ∧
    (pipelineTrace.filter fun s => s != PipelineStep.printDeltas) =
      [.constructOperator, .computeReference, .runVariational,
       .extractParameters, .wrapInitialState, .runPhaseEstimation] ∧
    pipelineTrace.count PipelineStep.printDeltas = 2 := by
  decide

/-- C6 counterexample: the seed assignment does not precede every solver
invocation — the classical exact solver runs at trace position 2, before the
seed assignment at position 4. -/
theorem seed_order_counterexample :
    ¬ seedSetBeforeAllSolverInvocations ∧
    notebookTrace.get ⟨2, by decide⟩ = NBOp.computeReference ∧
    isSolverInvocation NBOp.computeReference = true ∧
    notebookTrace.indexOf NBOp.setSeed = 4 := by
  decide

/-- C6 (amended): the process-wide random seed is set exactly once, and the
single assignment precedes the variational and phase-estimation solver
invocations but follows the classical exact-solver invocation. -/
theorem seed_once_between_solvers :
    notebookTrace.count NBOp.setSeed = 1 ∧
    notebookTrace.indexOf NBOp.computeReference <
      notebookTrace.indexOf NBOp.setSeed ∧
    notebookTrace.indexOf NBOp.setSeed < notebookTrace.indexOf NBOp.runVQE ∧
    notebookTrace.indexOf NBOp.setSeed < notebookTrace.indexOf NBOp.runIQPE := by
  decide

/-! ### Evaluation lemmas for the cell semantics -/

lemma runThroughVQE_ok_fields (ext : ExtCalls) (rn rv : MEResult)
    (hn : ext.npme = .ok rn) (hv : ext.vqe = .ok rv) :
    runThroughVQE ext = .ok
      { H2_op := some H2op, ref_value := some rn.eigenvalue.re,
        aqua_random_seed := some 5, var_form := some varFormTwoLocal,
        qi := some qiVQE, result_vqe := some rv, vqe_state := none,
        iqpe := none, result_iqpe := none } := by
  obtain ⟨ne, ve, ie⟩ := ext
  subst hn
  subst hv
  rfl

lemma runNotebook_ok_fields (ext : ExtCalls) (rn rv ri : MEResult)
    (hn : ext.npme = .ok rn) (hv : ext.vqe = .ok rv) (hi : ext.iqpe = .ok ri) :
    runNotebook ext = .ok
      { H2_op := some H2op, ref_value := some rn.eigenvalue.re,
        aqua_random_seed := some 5, var_form := some varFormTwoLocal,
        qi := some qiIQPE, result_vqe := some ri,
        vqe_state := some ⟨varFormTwoLocal, rv.optimal_parameters⟩,
        iqpe := some ⟨⟨varFormTwoLocal, rv.optimal_parameters⟩, 1, 6,
          "suzuki", 2, qiIQPE⟩,
        result_iqpe := some ri } := by
  obtain ⟨ne, ve, ie⟩ := ext
  subst hn
  subst hv
  subst hi
  rfl

lemma runNotebook_npme_error (ext : ExtCalls) (msg : String)
    (hn : ext.npme = .error msg) : runNotebook ext = .error msg := by
  obtain ⟨ne, ve, ie⟩ := ext
  subst hn
  rfl

lemma runNotebook_vqe_error (ext : ExtCalls) (rn : MEResult) (msg : String)
    (hn : ext.npme = .ok rn) (hv : ext.vqe = .error msg) :
    runNotebook ext = .error msg := by
  obtain ⟨ne, ve, ie⟩ := ext
  subst hn
  subst hv
  rfl

lemma runNotebook_iqpe_error (ext : ExtCalls) (rn rv : MEResult) (msg : String)
    (hn : ext.npme = .ok rn) (hv : ext.vqe = .ok rv)
    (hi : ext.iqpe = .error msg) : runNotebook ext = .error msg := by
  obtain ⟨ne, ve, ie⟩ := ext
  subst hn
  subst hv
  subst hi
  rfl

/-! ### The operator as a list of Pauli terms -/

/-- The three Pauli labels that cell 1 brings in from the external
operator library: I, X and Z. -/
inductive Pauli where
  | I
  | X
  | Z
deriving DecidableEq

/-- Matrix of a Pauli label. -/
def Pauli.toMatrix : Pauli → Matrix (Fin 2) (Fin 2) ℚ
  | .I => pauliI
  | .X => pauliX
  | .Z => pauliZ

/-- The five literal terms of `H2_op`, each a coefficient and the two Pauli
factors, transcribed from cell 2 in source order. -/
def H2terms : List (ℚ × Pauli × Pauli) :=
  [(-1.052373245772859, .I, .I),
   (0.39793742484318045, .I, .Z),
   (-0.39793742484318045, .Z, .I),
   (-0.01128010425623538, .Z, .Z),
   (0.18093119978423156, .X, .X)]

/-! ### Claim theorems about the cell semantics -/

/-- C1: for any solver outcomes consistent with the notebook's recorded
prints, the IQPE eigenvalue is strictly closer to the reference value than
the VQE eigenvalue: `|result_iqpe.eigenvalue.real - ref_value| <
|result_vqe.eigenvalue.real - ref_value|`, reading `result_vqe` at its
binding in cell 4 and `result_iqpe` at its binding in cell 6. -/
theorem iqpe_strictly_closer_than_vqe (ext : ExtCalls)
    (hrec : MatchesRecordedOutputs ext) (env4 env6 : NotebookEnv)
    (h4 : runThroughVQE ext = .ok env4) (h6 : runNotebook ext = .ok env6)
    (rf : ℚ) (rv ri : MEResult)
    (hrf : env4.ref_value = some rf) (hrv : env4.result_vqe = some rv)
    (hri : env6.result_iqpe = some ri) :
    |ri.eigenvalue.re - rf| < |rv.eigenvalue.re - rf| := by
  obtain ⟨rn', rv', ri', hn, hv, hi, _, _, hdv, _, hdi⟩ := hrec
  rw [runThroughVQE_ok_fields ext rn' rv' hn hv] at h4
  injection h4 with h4
  subst h4
  rw [runNotebook_ok_fields ext rn' rv' ri' hn hv hi] at h6
  injection h6 with h6
  subst h6
  have e1 : some rn'.eigenvalue.re = some rf := hrf
  injection e1 with e1
  subst e1
  have e2 : some rv' = some rv := hrv
  injection e2 with e2
  subst e2
  have e3 : some ri' = some ri := hri
  injection e3 with e3
  subst e3
  have b1 := round5_bound _ _ hdv
  have b2 := round5_bound _ _ hdi
  push_cast at b1 b2
  have h1 := abs_le.mp b1
  have h2 := abs_le.mp b2
  have hub : |ri'.eigenvalue.re - rn'.eigenvalue.re| ≤ 811 / 100000 + 1 / 200000 :=
    abs_le.mpr ⟨by linarith [h2.1], by linarith [h2.2]⟩
  have hlb : rv'.eigenvalue.re - rn'.eigenvalue.re ≤
      |rv'.eigenvalue.re - rn'.eigenvalue.re| := le_abs_self _
  calc |ri'.eigenvalue.re - rn'.eigenvalue.re|
      ≤ 811 / 100000 + 1 / 200000 := hub
    _ < 11664 / 100000 - 1 / 200000 := by norm_num
    _ ≤ rv'.eigenvalue.re - rn'.eigenvalue.re := by linarith [h1.1]
    _ ≤ |rv'.eigenvalue.re - rn'.eigenvalue.re| := hlb

/-- C3: under the recorded-run constraints, after cell 4 the bound
`result_vqe` holds an eigenvalue whose real part is within floating
tolerance of `-1.74063`. -/
theorem vqe_eigenvalue_approx (ext : ExtCalls) (env : NotebookEnv)
    (hrec : MatchesRecordedOutputs ext) (h : runThroughVQE ext = .ok env) :
    ∃ rv : MEResult, env.result_vqe = some rv ∧
      |rv.eigenvalue.re - (-1.74063)| < 1 / 100000 := by
  obtain ⟨rn', rv', ri', hn, hv, hi, _, h5, _, _, _⟩ := hrec
  rw [runThroughVQE_ok_fields ext rn' rv' hn hv] at h
  injection h with h
  subst h
  refine ⟨rv', rfl, ?_⟩
  have b := round5_bound _ _ h5
  push_cast at b
  have hb := abs_le.mp b
  rw [abs_lt]
  constructor <;> linarith [hb.1, hb.2]

/-- C4: under the recorded-run constraints, the final cell configures IQPE
with the `VarFormBased` state built from the VQE optimal parameters, one time
slice, six iterations, Suzuki expansion of order 2, and binds `result_iqpe`
to an eigenvalue whose real part is approximately `-1.84917`. -/
theorem iqpe_eigenvalue_approx (ext : ExtCalls) (env : NotebookEnv)
    (hrec : MatchesRecordedOutputs ext) (h : runNotebook ext = .ok env) :
    (∃ cfg : IQPECfg, env.iqpe = some cfg ∧ cfg.num_time_slices = 1 ∧
        cfg.num_iterations = 6 ∧ cfg.expansion_mode = "suzuki" ∧
        cfg.expansion_order = 2 ∧
        ∀ rv : MEResult, ext.vqe = .ok rv →
          cfg.state_in = ⟨varFormTwoLocal, rv.optimal_parameters⟩) ∧
    ∃ ri : MEResult, env.result_iqpe = some ri ∧
      |ri.eigenvalue.re - (-1.84917)| < 1 / 100000 := by
  obtain ⟨rn', rv', ri', hn, hv, hi, _, _, _, h7, _⟩ := hrec
  rw [runNotebook_ok_fields ext rn' rv' ri' hn hv hi] at h
  injection h with h
  subst h
  constructor
  · refine ⟨_, rfl, rfl, rfl, rfl, rfl, ?_⟩
    intro rv hv2
    have e := hv.symm.trans hv2
    injection e with e
    subst e
    rfl
  · refine ⟨ri', rfl, ?_⟩
    have b := round5_bound _ _ h7
    push_cast at b
    have hb := abs_le.mp b
    rw [abs_lt]
    constructor <;> linarith [hb.1, hb.2]

/-- C7: `H2_op` is the fixed linear combination of the five literal Pauli
terms (tensor products of I, X, Z over 2 qubits), and no cell modifies it
after construction: any successful full run leaves the binding equal to the
constructed matrix. -/
theorem H2op_linear_combination_immutable (ext : ExtCalls) (env : NotebookEnv)
    (h : runNotebook ext = .ok env) :
    env.H2_op = some H2op ∧
    H2op = (H2terms.map fun t =>
      t.1 • kron (Pauli.toMatrix t.2.1) (Pauli.toMatrix t.2.2)).sum ∧
    H2terms.length = 5 := by
  refine ⟨?_, ?_, rfl⟩
  · rcases hn : ext.npme with msg | rn
    · rw [runNotebook_npme_error ext msg hn] at h
      simp at h
    rcases hv : ext.vqe with msg | rv
    · rw [runNotebook_vqe_error ext rn msg hn hv] at h
      simp at h
    rcases hi : ext.iqpe with msg | ri
    · rw [runNotebook_iqpe_error ext rn rv msg hn hv hi] at h
      simp at h
    rw [runNotebook_ok_fields ext rn rv ri hn hv hi] at h
    injection h with h
    subst h
    rfl
  · simp only [H2terms, List.map_cons, List.map_nil, List.sum_cons,
      List.sum_nil, Pauli.toMatrix, H2op, add_zero]
    abel

/-- C8: the notebook catches nothing: an exception raised by any of the three
solver calls propagates uncaught, and the run halts with exactly that
exception. -/
theorem exceptions_propagate_uncaught (ext : ExtCalls) (msg : String) :
    (ext.npme = .error msg → runNotebook ext = .error msg) ∧
    (∀ rn : MEResult, ext.npme = .ok rn → ext.vqe = .error msg →
      runNotebook ext = .error msg) ∧
    (∀ rn rv : MEResult, ext.npme = .ok rn → ext.vqe = .ok rv →
      ext.iqpe = .error msg → runNotebook ext = .error msg) :=
  ⟨fun hn => runNotebook_npme_error ext msg hn,
   fun rn hn hv => runNotebook_vqe_error ext rn msg hn hv,
   fun rn rv hn hv hi => runNotebook_iqpe_error ext rn rv msg hn hv hi⟩

/-- C9: the chained assignment of cell 6 rebinds `result_vqe` to the IQPE
result: after a successful run both `result_vqe` and `result_iqpe` hold the
IQPE result, so a distinct original VQE result is no longer reachable
through `result_vqe`. -/
theorem result_vqe_rebound_to_iqpe (ext : ExtCalls) (env : NotebookEnv)
    (h : runNotebook ext = .ok env) (ri : MEResult) (hi : ext.iqpe = .ok ri) :
    env.result_vqe = some ri ∧ env.result_iqpe = env.result_vqe ∧
    ∀ rv : MEResult, ext.vqe = .ok rv → rv ≠ ri →
      env.result_vqe ≠ some rv := by
  rcases hn : ext.npme with msg | rn
  · rw [runNotebook_npme_error ext msg hn] at h
    simp at h
  rcases hv : ext.vqe with msg | rv
  · rw [runNotebook_vqe_error ext rn msg hn hv] at h
    simp at h
  rw [runNotebook_ok_fields ext rn rv ri hn hv hi] at h
  injection h with h
  subst h
  refine ⟨rfl, rfl, ?_⟩
  intro rv2 hv2 hne hcon
  have hcon' : some ri = some rv2 := hcon
  injection hcon' with e
  exact hne e.symm

/-- C10: the two solvers run on differently configured quantum instances —
cell 4 builds one with no `shots` argument, cell 6 rebuilds one with
`shots=100`; both use `seed_simulator=5` and `seed_transpiler=5` on the same
qasm-simulator backend. -/
theorem quantum_instance_configurations (ext : ExtCalls)
    (env4 env6 : NotebookEnv) (h4 : runThroughVQE ext = .ok env4)
    (h6 : runNotebook ext = .ok env6) :
    env4.qi = some qiVQE ∧ env6.qi = some qiIQPE ∧
    qiVQE.shots = none ∧ qiIQPE.shots = some 100 ∧
    qiVQE.seed_simulator = some 5 ∧ qiIQPE.seed_simulator = some 5 ∧
    qiVQE.seed_transpiler = some 5 ∧ qiIQPE.seed_transpiler = some 5 ∧
    qiVQE.backend = qiIQPE.backend := by
  rcases hn : ext.npme with msg | rn
  · rw [runNotebook_npme_error ext msg hn] at h6
    simp at h6
  rcases hv : ext.vqe with msg | rv
  · rw [runNotebook_vqe_error ext rn msg hn hv] at h6
    simp at h6
  rcases hi : ext.iqpe with msg | ri
  · rw [runNotebook_iqpe_error ext rn rv msg hn hv hi] at h6
    simp at h6
  rw [runThroughVQE_ok_fields ext rn rv hn hv] at h4
  injection h4 with h4
  subst h4
  rw [runNotebook_ok_fields ext rn rv ri hn hv hi] at h6
  injection h6 with h6
  subst h6
  exact ⟨rfl, rfl, rfl, rfl, rfl, rfl, rfl, rfl, rfl⟩

/-! ### Witnesses: the hypothesised theorems hold at the recorded run -/

lemma matchesRecorded : MatchesRecordedOutputs extRecorded := by
  refine ⟨rnRecorded, rvRecorded, riRecorded, rfl, rfl, rfl, ?_, ?_, ?_, ?_, ?_⟩ <;>
    norm_num [round5, round_eq, rnRecorded, rvRecorded, riRecorded]

/-- Namespace state after cell 4 on the recorded outcomes. -/
def env4Recorded : NotebookEnv :=
  { H2_op := some H2op, ref_value := some (-1.857277),
    aqua_random_seed := some 5, var_form := some varFormTwoLocal,
    qi := some qiVQE, result_vqe := some rvRecorded, vqe_state := none,
    iqpe := none, result_iqpe := none }

/-- Namespace state after cell 6 on the recorded outcomes. -/
def env6Recorded : NotebookEnv :=
  { H2_op := some H2op, ref_value := some (-1.857277),
    aqua_random_seed := some 5, var_form := some varFormTwoLocal,
    qi := some qiIQPE, result_vqe := some riRecorded,
    vqe_state := some ⟨varFormTwoLocal, [1/2, 1/3]⟩,
    iqpe := some ⟨⟨varFormTwoLocal, [1/2, 1/3]⟩, 1, 6, "suzuki", 2, qiIQPE⟩,
    result_iqpe := some riRecorded }

/-- Witness for C1 at the recorded outcomes. -/
theorem iqpe_strictly_closer_than_vqe_witness :
    |riRecorded.eigenvalue.re - (-1.857277)| <
      |rvRecorded.eigenvalue.re - (-1.857277)| :=
  iqpe_strictly_closer_than_vqe extRecorded matchesRecorded
    env4Recorded env6Recorded rfl rfl (-1.857277) rvRecorded riRecorded
    rfl rfl rfl

/-- Witness for C3 at the recorded outcomes. -/
theorem vqe_eigenvalue_approx_witness :
    ∃ rv : MEResult, env4Recorded.result_vqe = some rv ∧
      |rv.eigenvalue.re - (-1.74063)| < 1 / 100000 :=
  vqe_eigenvalue_approx extRecorded env4Recorded matchesRecorded rfl

/-- Witness for C4 at the recorded outcomes. -/
theorem iqpe_eigenvalue_approx_witness :
    (∃ cfg : IQPECfg, env6Recorded.iqpe = some cfg ∧ cfg.num_time_slices = 1 ∧
        cfg.num_iterations = 6 ∧ cfg.expansion_mode = "suzuki" ∧
        cfg.expansion_order = 2 ∧
        ∀ rv : MEResult, extRecorded.vqe = .ok rv →
          cfg.state_in = ⟨varFormTwoLocal, rv.optimal_parameters⟩) ∧
    ∃ ri : MEResult, env6Recorded.result_iqpe = some ri ∧
      |ri.eigenvalue.re - (-1.84917)| < 1 / 100000 :=
  iqpe_eigenvalue_approx extRecorded env6Recorded matchesRecorded rfl

/-- Witness for C7 at the recorded outcomes. -/
theorem H2op_linear_combination_immutable_witness :
    env6Recorded.H2_op = some H2op ∧
    H2op = (H2terms.map fun t =>
      t.1 • kron (Pauli.toMatrix t.2.1) (Pauli.toMatrix t.2.2)).sum ∧
    H2terms.length = 5 :=
  H2op_linear_combination_immutable extRecorded env6Recorded rfl

/-- Solver outcomes in which the exact solver raises. -/
def extFailing : ExtCalls :=
  { npme := .error "ARPACK convergence failure", vqe := .ok rvRecorded,
    iqpe := .ok riRecorded }

/-- Witness for C8: a failing exact-solver call halts the whole run with
its exception. -/
theorem exceptions_propagate_uncaught_witness :
    runNotebook extFailing = .error "ARPACK convergence failure" :=
  (exceptions_propagate_uncaught extFailing "ARPACK convergence failure").1 rfl

/-- Witness for C9 at the recorded outcomes. -/
theorem result_vqe_rebound_to_iqpe_witness :
    env6Recorded.result_vqe = some riRecorded ∧
    env6Recorded.result_iqpe = env6Recorded.result_vqe ∧
    ∀ rv : MEResult, extRecorded.vqe = .ok rv → rv ≠ riRecorded →
      env6Recorded.result_vqe ≠ some rv :=
  result_vqe_rebound_to_iqpe extRecorded env6Recorded rfl riRecorded rfl

/-- Witness for C10 at the recorded outcomes. -/
theorem quantum_instance_configurations_witness :
    env4Recorded.qi = some qiVQE ∧ env6Recorded.qi = some qiIQPE ∧
    qiVQE.shots = none ∧ qiIQPE.shots = some 100 ∧
    qiVQE.seed_simulator = some 5 ∧ qiIQPE.seed_simulator = some 5 ∧
    qiVQE.seed_transpiler = some 5 ∧ qiIQPE.seed_transpiler = some 5 ∧
    qiVQE.backend = qiIQPE.backend :=
  quantum_instance_configurations extRecorded env4Recorded env6Recorded rfl rfl

end IqpeFromVqe
